import Mathlib

/-!
Shallow embedding of the conversation-state orchestration layer of the
matrix client repository: the echo reconciler and timeline handler and the
send path of src/matrix.js, the media resolution chain of src/matrix.js and
src/app.js, the event classifier of src/matrix.js, the pagination
controller of src/app.js, and the WebRTC call orchestrator of
src/unnamed/part_000.

External collaborators (the protocol client, fetch, getUserMedia, the call
object) are modelled by outcome parameters passed to each embedded
function; the embedded function mirrors the control flow of the source on
each outcome.
-/

/- ------------------------------------------------------------------
   Echo reconciler and timeline handler (src/matrix.js)
   ------------------------------------------------------------------ -/

/-- State owned by MatrixManager that the timeline handler and the send path
touch: the pending-echo set (a JS Set of event ids, modelled as a
duplicate-free list), the message timeline of the currently open room
(the ids appended to the messages container), and the last-message slot of
the DM list. -/
structure EchoState where
  pendingEchos : List String
  timeline : List String
  dmLast : Option String
  deriving Repr, DecidableEq

/-- Result of MatrixManager.handleRoomTimelineEvent: the state after the
handler ran, and whether the event was suppressed as a pending echo. -/
structure HandleResult where
  state : EchoState
  suppressed : Bool
  deriving Repr, DecidableEq

/-- src/matrix.js lines 212-233, MatrixManager.handleRoomTimelineEvent:
ignore event types other than m.room.message and m.room.encrypted; skip
(suppress) an event whose id is in pendingEchos — note the source does not
delete the id from the set on this path; otherwise append to the UI
timeline when the event belongs to the currently open room and always
update the DM-list last message. -/
def handleRoomTimelineEvent (st : EchoState) (eventType eventId : String)
    (isCurrentRoom : Bool) : HandleResult :=
  if eventType ≠ "m.room.message" ∧ eventType ≠ "m.room.encrypted" then
    ⟨st, false⟩
  else if st.pendingEchos.contains eventId then
    ⟨st, true⟩
  else
    let st1 := if isCurrentRoom then
      { st with timeline := st.timeline ++ [eventId] } else st
    ⟨{ st1 with dmLast := some eventId }, false⟩

/-- The setTimeout callback registered by sendMessage
(src/matrix.js line 1217): `this.pendingEchos.delete(resp.event_id)`,
fired about 5 seconds after the send. -/
def expireEcho (st : EchoState) (eventId : String) : EchoState :=
  { st with pendingEchos := st.pendingEchos.erase eventId }

/-- `this.pendingEchos.add(resp.event_id)` — JS Set add (no duplicate). -/
def registerEcho (st : EchoState) (eventId : String) : EchoState :=
  if st.pendingEchos.contains eventId then st
  else { st with pendingEchos := st.pendingEchos ++ [eventId] }

/- ------------------------------------------------------------------
   Send path (src/matrix.js lines 1209-1247, MatrixManager.sendMessage)
   ------------------------------------------------------------------ -/

/-- Outcome of one `client.sendTextMessage` attempt, as the send path
distinguishes them: success with an event id, an UnknownDeviceError
carrying the reported (userId, deviceId) pairs, or any other error. -/
inductive SendOutcome where
  | ok (eventId : String)
  | unknownDeviceError (devices : List (String × String))
  | otherError (msg : String)
  deriving Repr, DecidableEq

/-- Whether a send outcome is a success. -/
def SendOutcome.isOk : SendOutcome → Bool
  | .ok _ => true
  | _ => false

/-- Result of MatrixManager.sendMessage: the echo state afterwards, the
error propagated to the caller (if any), the (userId, deviceId) pairs
actually acknowledged via setDeviceKnown (a prefix of the reported pairs
when an acknowledgment throws), whether the room sweep
(acknowledgeUnknownDevicesInRoom) ran, and how many sendTextMessage
attempts were made. -/
structure SendResult where
  state : EchoState
  thrown : Option SendOutcome
  acked : List (String × String)
  sweptRoom : Bool
  attempts : Nat
  deriving Repr, DecidableEq

/-- JS String.prototype.trim, modelled over the character list (the
whitespace predicate of the platform, structurally recursive so that it
evaluates in the kernel). -/
def jsTrim (s : String) : String :=
  String.mk
    (((s.toList.dropWhile Char.isWhitespace).reverse.dropWhile
      Char.isWhitespace).reverse)

/-- The nested acknowledgment loops of the UnknownDeviceError recovery
(src/matrix.js lines 1224-1229): the (userId, deviceId) pairs of
error.devices are processed in order and each one is awaited through
client.setDeviceKnown, which may itself throw; the first throw aborts the
loop. ackResult is the collaborator outcome per pair (none = returned,
some msg = threw). Returns the pairs acknowledged before any throw,
together with the thrown error if one occurred. -/
def ackDevicesLoop (ackResult : String × String → Option String) :
    List (String × String) → List (String × String) × Option String
  | [] => ([], none)
  | d :: ds =>
    match ackResult d with
    | some msg => ([], some msg)
    | none =>
      let r := ackDevicesLoop ackResult ds
      (d :: r.1, r.2)

/-- src/matrix.js lines 1209-1247, MatrixManager.sendMessage: bail out on
an empty message; on success register the echo (with the 5 s expiry
timer, modelled separately by expireEcho). On UnknownDeviceError run the
per-device acknowledgment loop: a throw from an awaited setDeviceKnown
lands in the inner catch (e2) and is rethrown before any retry, leaving a
partial acknowledgment, no room sweep and a single send attempt;
otherwise sweep the room (acknowledgeUnknownDevicesInRoom, whose body is
internally caught and only logs, so it cannot throw), retry exactly once,
and rethrow the retry error if the retry also fails. Any other error is
rethrown. The outcomes of the two send attempts and of the per-device
acknowledgments are supplied by the collaborator model; a thrown
acknowledgment error propagates as a plain error value. -/
def sendMessage (st : EchoState) (message : String)
    (firstAttempt : SendOutcome)
    (ackResult : String × String → Option String)
    (retryAttempt : SendOutcome) : SendResult :=
  if jsTrim message = "" then ⟨st, none, [], false, 0⟩
  else
    match firstAttempt with
    | .ok eid => ⟨registerEcho st eid, none, [], false, 1⟩
    | .unknownDeviceError devs =>
      match ackDevicesLoop ackResult devs with
      | (acked, some msg) => ⟨st, some (.otherError msg), acked, false, 1⟩
      | (acked, none) =>
        match retryAttempt with
        | .ok eid => ⟨registerEcho st eid, none, acked, true, 2⟩
        | e2 => ⟨st, some e2, acked, true, 2⟩
    | .otherError m => ⟨st, some (.otherError m), [], false, 1⟩

/- ------------------------------------------------------------------
   Media resolution chain (src/matrix.js lines 440-490, src/app.js
   lines 1031-1110)
   ------------------------------------------------------------------ -/

/-- Hex digit for percent encoding (uppercase, as JS encodeURIComponent). -/
def hexDigit (n : Nat) : Char :=
  if n < 10 then Char.ofNat (48 + n) else Char.ofNat (55 + n)

/-- One percent-escaped byte. -/
def percentEncodeByte (n : Nat) : String :=
  "%" ++ String.singleton (hexDigit (n / 16 % 16)) ++
    String.singleton (hexDigit (n % 16))

/-- JS encodeURIComponent on one character: unreserved characters pass
through, everything else is percent-escaped. Non-ASCII code points are
modelled as a single escaped unit (the claims only use ASCII locators). -/
def encodeURIComponentChar (c : Char) : String :=
  if c.isAlphanum ∨
      [Char.ofNat 45, Char.ofNat 95, Char.ofNat 46, Char.ofNat 33,
       Char.ofNat 126, Char.ofNat 42, Char.ofNat 39, Char.ofNat 40,
       Char.ofNat 41].contains c then
    String.singleton c
  else
    percentEncodeByte c.toNat

/-- JS encodeURIComponent. -/
def encodeURIComponent (s : String) : String :=
  s.toList.foldr (fun c acc => encodeURIComponentChar c ++ acc) ""

/-- Parsed mxc:// locator. -/
structure MxcParts where
  serverName : String
  mediaId : String
  deriving Repr, DecidableEq

/-- Split a character list at its first slash: the JS
`rest.indexOf('/')` followed by the two slices, with none for index -1. -/
def splitFirstSlash : List Char → Option (List Char × List Char)
  | [] => none
  | c :: cs =>
    if c = Char.ofNat 47 then some ([], cs)
    else match splitFirstSlash cs with
      | none => none
      | some (a, b) => some (c :: a, b)

/-- src/matrix.js lines 440-446, MatrixManager.parseMxc: require the
mxc:// scheme, split the remainder at its first slash into server name and
media id. -/
def parseMxc (mxcUrl : String) : Option MxcParts :=
  if "mxc://".toList.isPrefixOf mxcUrl.toList then
    match splitFirstSlash (mxcUrl.toList.drop 6) with
    | none => none
    | some (srv, med) => some ⟨String.mk srv, String.mk med⟩
  else none

/-- `this.client.getHomeserverUrl().replace(/\/$/, '')`. -/
def stripTrailingSlash (s : String) : String :=
  if s.toList.getLast? = some (Char.ofNat 47) then String.mk s.toList.dropLast
  else s

/-- The v3 download URL built by resolveMxcDownloadUrl
(src/matrix.js line 455). -/
def mediaV3DownloadUrl (base : String) (p : MxcParts) : String :=
  base ++ "/_matrix/media/v3/download/" ++ encodeURIComponent p.serverName ++
    "/" ++ encodeURIComponent p.mediaId ++ "?allow_redirect=true"

/-- The r0 download URL built by resolveMxcDownloadUrl
(src/matrix.js line 456) and by formatMessageContent
(src/app.js line 1065). -/
def mediaR0DownloadUrl (base : String) (p : MxcParts) : String :=
  base ++ "/_matrix/media/r0/download/" ++ encodeURIComponent p.serverName ++
    "/" ++ encodeURIComponent p.mediaId

/-- Outcome of one `fetch` of a URL: an ok response, a response with an
error status, or a thrown network error. -/
inductive FetchOutcome where
  | ok
  | httpError (status : Nat)
  | netThrow
  deriving Repr, DecidableEq

/-- Result of a resolution step: the value the function returned (none for
the JS `undefined` and `null`), and the URLs it actually fetched. -/
structure ResolveResult where
  url : Option String
  attempted : List String
  deriving Repr, DecidableEq

/-- src/matrix.js lines 451-472, MatrixManager.resolveMxcDownloadUrl: build
the v3 and r0 URLs; fetch the v3 URL; if the response is ok return the v3
URL; if the response has an error status the function falls off the end of
the try block and returns undefined; if the fetch throws, the catch block
returns the r0 URL without fetching it. The r0 URL is never fetched by
this function. -/
def resolveMxcDownloadUrl (homeserverUrl mxcUrl : String)
    (v3Fetch : FetchOutcome) : ResolveResult :=
  match parseMxc mxcUrl with
  | none => ⟨none, []⟩
  | some parts =>
    let base := stripTrailingSlash homeserverUrl
    let v3 := mediaV3DownloadUrl base parts
    let r0 := mediaR0DownloadUrl base parts
    match v3Fetch with
    | .ok => ⟨some v3, [v3]⟩
    | .httpError _ => ⟨none, [v3]⟩
    | .netThrow => ⟨some r0, [v3]⟩

/-- Result of the unencrypted-image branch of formatMessageContent: the
HTML it returned and the URLs it fetched. -/
structure ImageRenderResult where
  html : String
  attempted : List String
  deriving Repr, DecidableEq

/-- The img tag built on success (src/app.js lines 1106-1110), with the
object URL of the downloaded blob (URL.createObjectURL is modelled as the
source URL tagged with a blob: prefix). -/
def imageHtml (blobUrl : String) : String :=
  "<div class=\"image-message\"><img src=\"" ++ blobUrl ++ "\"></div>"

/-- src/app.js lines 1056-1104, the unencrypted-image branch of
formatMessageContent: parse the locator; build the r0 download URL inline
and take the v3 URL from the SDK call client.mxcUrlToHttp (an external
collaborator, supplied as v3Url); fetchToBlob throws both on a network
error and on a non-ok response, so any v3 failure falls to one r0 attempt;
if that also fails, return the fixed error span — which names neither
attempted locator. -/
def formatImageUnencrypted (homeserverUrl mxcUrl v3Url : String)
    (v3Fetch r0Fetch : FetchOutcome) : ImageRenderResult :=
  match parseMxc mxcUrl with
  | none => ⟨"<span class=\"error-message\">Invalid image URL</span>", []⟩
  | some parts =>
    let base := stripTrailingSlash homeserverUrl
    let r0 := mediaR0DownloadUrl base parts
    match v3Fetch with
    | .ok => ⟨imageHtml ("blob:" ++ v3Url), [v3Url]⟩
    | _ =>
      match r0Fetch with
      | .ok => ⟨imageHtml ("blob:" ++ r0), [v3Url, r0]⟩
      | _ => ⟨"<span class=\"error-message\">Image unavailable</span>",
              [v3Url, r0]⟩

/- ------------------------------------------------------------------
   Call signaling orchestrator (src/unnamed/part_000, WebRTCManager)
   ------------------------------------------------------------------ -/

/-- The mutable fields of WebRTCManager. Streams are modelled as lists of
track ids; stoppedTracks records every track on which track.stop() was
called. -/
structure RTCState where
  currentCall : Option String
  localStream : Option (List String)
  remoteStream : Option (List String)
  isVideo : Bool
  isInCall : Bool
  stoppedTracks : List String
  deriving Repr, DecidableEq

/-- src/unnamed/part_000 lines 525-554, WebRTCManager.cleanup: stop every
track of the local stream, then null out localStream, currentCall,
remoteStream and reset isInCall and isVideo. -/
def cleanup (st : RTCState) : RTCState :=
  { currentCall := none
    localStream := none
    remoteStream := none
    isVideo := false
    isInCall := false
    stoppedTracks := st.stoppedTracks ++ st.localStream.getD [] }

/-- Outcome of getUserMedia: a stream with its tracks, or a throw (which
also covers the `if (!stream) throw` guard). -/
inductive MediaOutcome where
  | gotStream (tracks : List String)
  | mediaThrow (msg : String)
  deriving Repr, DecidableEq

/-- Outcome of client.createCall: a call object, or null. -/
inductive CreateOutcome where
  | created (callId : String)
  | createNull
  deriving Repr, DecidableEq

/-- Outcome of an awaited call operation (placeCall, answer, reject,
hangup): normal return or a throw. -/
inductive CallOpOutcome where
  | opOk
  | opThrow
  deriving Repr, DecidableEq

/-- Result of WebRTCManager.makeCall: the state afterwards, the returned
boolean, and the showCallError message if one was shown. -/
structure MakeCallResult where
  state : RTCState
  success : Bool
  errorShown : Option String
  deriving Repr, DecidableEq

/-- src/unnamed/part_000 lines 116-189, WebRTCManager.makeCall: return
false immediately when already in a call; set isVideo; acquire user media;
create the call object; set currentCall and isInCall; place the call. Any
throw lands in the catch block, which runs cleanup, shows an error and
returns false. -/
def makeCall (st : RTCState) (isVideo : Bool) (media : MediaOutcome)
    (create : CreateOutcome) (place : CallOpOutcome) : MakeCallResult :=
  if st.isInCall then ⟨st, false, none⟩
  else
    let st1 := { st with isVideo := isVideo }
    match media with
    | .mediaThrow msg =>
      ⟨cleanup st1, false, some ("Failed to start call: " ++ msg)⟩
    | .gotStream tracks =>
      let st2 := { st1 with localStream := some tracks }
      match create with
      | .createNull =>
        ⟨cleanup st2, false,
          some "Failed to start call: Failed to create call"⟩
      | .created callId =>
        let st3 := { st2 with currentCall := some callId, isInCall := true }
        match place with
        | .opThrow =>
          ⟨cleanup st3, false, some "Failed to start call: place failed"⟩
        | .opOk => ⟨st3, true, none⟩

/-- An incoming Matrix call object, with the fields the handler reads. -/
structure IncomingCall where
  callId : String
  hasRemoteVideo : Bool
  typeIsVideo : Bool
  deriving Repr, DecidableEq

/-- src/unnamed/part_000 lines 195-269, WebRTCManager.handleIncomingCall:
when already in a call, reject the incoming call and return — but the
whole body sits in a try block whose catch runs cleanup, so a throw from
that reject tears down the active session. Otherwise set isVideo from the
remote offer, show the dialog (its answer is the accept parameter); on
accept set currentCall, isVideo, isInCall, acquire media, answer; on
decline reject. Any throw lands in the catch, which runs cleanup. -/
def handleIncomingCall (st : RTCState) (call : IncomingCall)
    (rejectWhileActive : CallOpOutcome) (accept : Bool)
    (media : MediaOutcome) (answer : CallOpOutcome)
    (rejectDecline : CallOpOutcome) : RTCState :=
  if st.isInCall then
    match rejectWhileActive with
    | .opOk => st
    | .opThrow => cleanup st
  else
    let st1 := { st with isVideo := call.hasRemoteVideo }
    if accept then
      let st2 := { st1 with currentCall := some call.callId,
                            isVideo := call.typeIsVideo, isInCall := true }
      match media with
      | .mediaThrow _ => cleanup st2
      | .gotStream tracks =>
        let st3 := { st2 with localStream := some tracks }
        match answer with
        | .opThrow => cleanup st3
        | .opOk => st3
    else
      match rejectDecline with
      | .opOk => st1
      | .opThrow => cleanup st1

/-- src/unnamed/part_000 lines 421-427, WebRTCManager.handleCallEnded:
unconditionally cleanup (and notify the UI). -/
def handleCallEnded (st : RTCState) : RTCState := cleanup st

/-- src/unnamed/part_000 lines 433-435, WebRTCManager.handleCallHangup:
delegates to handleCallEnded. -/
def handleCallHangup (st : RTCState) : RTCState := handleCallEnded st

/-- src/unnamed/part_000 lines 380-399,
WebRTCManager.handleCallStateChange: only the ended state mutates this
layer (via handleCallEnded). -/
def handleCallStateChange (st : RTCState) (newState : String) : RTCState :=
  if newState = "ended" then handleCallEnded st else st

/-- src/unnamed/part_000 lines 300-303, the per-call error event handler:
it only shows a toast; the session state is untouched. -/
def handleCallErrorEvent (st : RTCState) : RTCState := st

/-- src/unnamed/part_000 lines 276-285, the feeds_changed handler: attach
the first remote feed as the remote stream. -/
def handleFeedsChanged (st : RTCState)
    (remoteFeeds : List (List String)) : RTCState :=
  match remoteFeeds with
  | [] => st
  | f :: _ => { st with remoteStream := some f }

/-- src/unnamed/part_000 lines 440-453, WebRTCManager.hangup: hang up the
current call if any, then cleanup; a throw from the call hangup lands in
the catch, which also runs cleanup. -/
def hangup (st : RTCState) (hangupOp : CallOpOutcome) : RTCState :=
  match st.currentCall with
  | some _ =>
    match hangupOp with
    | .opOk => cleanup st
    | .opThrow => cleanup st
  | none => cleanup st

/- ------------------------------------------------------------------
   Event classifier (src/matrix.js lines 1025-1205,
   MatrixManager.formatEventToMessage)
   ------------------------------------------------------------------ -/

/-- JS `a || b` on a possibly-missing string: the empty string is falsy. -/
def jsOrString (a : Option String) (b : String) : String :=
  match a with
  | some s => if s = "" then b else s
  | none => b

/-- The content object of a raw event, with the fields the classifier
reads. Optional object-valued fields (m.relates_to, m.new_content, file,
thumbnails) are modelled by Option of an opaque payload. -/
structure EventContent where
  msgtype : Option String := none
  body : Option String := none
  filename : Option String := none
  format : Option String := none
  formattedBody : Option String := none
  relType : Option String := none
  relEventId : Option String := none
  relKey : Option String := none
  inReplyToEventId : Option String := none
  newContent : Option String := none
  url : Option String := none
  file : Option String := none
  infoSize : Option Int := none
  infoMimetype : Option String := none
  thumbnailUrl : Option String := none
  thumbnailFile : Option String := none
  geoUri : Option String := none
  membership : Option String := none
  displayname : Option String := none
  deriving Repr, DecidableEq

/-- A raw protocol event as the classifier consumes it. -/
structure MxEvent where
  id : String
  sender : String
  eventType : String
  ts : Int
  stateKey : Option String := none
  encrypted : Bool := false
  decryptionFailure : Bool := false
  unsignedDecryptionError : Option String := none
  decryptionFailureReason : Option String := none
  content : EventContent := {}
  deriving Repr, DecidableEq

/-- The typed renderable message the classifier produces (the plain JS
object literals of formatEventToMessage, pooled into one structure with
defaulted kind-specific fields). -/
structure Message where
  eventId : String
  kind : String
  type : String := ""
  content : String := ""
  html : Option String := none
  inReplyTo : Option String := none
  senderId : String := ""
  senderName : String := ""
  timestamp : Int := 0
  isOwn : Bool := false
  isDecryptionFailure : Bool := false
  targetEventId : Option String := none
  newContent : Option String := none
  mediaType : Option String := none
  url : Option String := none
  file : Option String := none
  thumbnailUrl : Option String := none
  thumbnailFile : Option String := none
  filename : Option String := none
  filesize : Int := 0
  mimetype : Option String := none
  geoUri : Option String := none
  key : Option String := none
  callType : Option String := none
  subtype : Option String := none
  membership : Option String := none
  stateKey : Option String := none
  displayName : Option String := none
  contentObj : Option EventContent := none
  deriving Repr, DecidableEq

/-- Which key-request primitive the crypto collaborator exposes: the
source probes crypto.requestRoomKey first, then
client.requestRoomKeyForEvent. -/
inductive KeyRequestApi where
  | cryptoApi
  | clientApi
  | neitherApi
  deriving Repr, DecidableEq

/-- Outcome of the awaited key request (its throw is caught). -/
inductive KeyRequestOutcome where
  | krOk
  | krThrow
  deriving Repr, DecidableEq

/-- Result of the classifier: the produced message and whether a key
request was issued to the crypto collaborator. -/
structure ClassifyResult where
  message : Message
  keyRequested : Bool
  deriving Repr, DecidableEq

/-- src/matrix.js lines 1025-1205, MatrixManager.formatEventToMessage.
The senderName parameter models `room.getMember(sender)?.rawDisplayName`
(the membership snapshot); JSON.stringify in the unknown branch is
modelled by the Repr rendering of the content. On a decryption failure the
key request is issued through whichever collaborator primitive exists and
its throw is swallowed; the returned error message does not depend on the
key-request outcome. -/
def formatEventToMessage (currentUserId : String) (event : MxEvent)
    (senderDisplayName : Option String) (api : KeyRequestApi)
    (kr : KeyRequestOutcome) : ClassifyResult :=
  let sender := event.sender
  let senderName := jsOrString senderDisplayName sender
  let ty := event.eventType
  let content := event.content
  let ts := event.ts
  let eventId := event.id
  let isOwn := sender == currentUserId
  if event.encrypted ∧ event.decryptionFailure then
    let keyRequested := match api with
      | .neitherApi => false
      | _ => true
    let _ := kr
    let errText := jsOrString event.unsignedDecryptionError
      (jsOrString event.decryptionFailureReason
        "Unable to decrypt: keys not available.")
    ⟨{ eventId := eventId, kind := "error", type := "m.notice",
       content := "🔒 " ++ errText, senderId := sender,
       senderName := senderName, timestamp := ts, isOwn := isOwn,
       isDecryptionFailure := true }, keyRequested⟩
  else if ty = "m.room.message" ∧
      content.relType = some "m.replace" ∧ content.newContent.isSome then
    ⟨{ eventId := eventId, kind := "edit",
       targetEventId := content.relEventId,
       newContent := content.newContent, senderId := sender,
       senderName := senderName, timestamp := ts, isOwn := isOwn }, false⟩
  else if ty = "m.room.message" ∧
      (content.msgtype = some "m.text" ∨ content.msgtype = some "m.notice" ∨
       content.msgtype = some "m.emote") then
    ⟨{ eventId := eventId, kind := "text",
       type := (content.msgtype).getD "",
       content := jsOrString content.body "",
       html := if content.format = some "org.matrix.custom.html" then
         content.formattedBody else none,
       inReplyTo := content.inReplyToEventId, senderId := sender,
       senderName := senderName, timestamp := ts, isOwn := isOwn }, false⟩
  else if ty = "m.room.message" ∧
      (content.msgtype = some "m.image" ∨ content.msgtype = some "m.video" ∨
       content.msgtype = some "m.audio" ∨ content.msgtype = some "m.file") then
    ⟨{ eventId := eventId, kind := "media", mediaType := content.msgtype,
       content := jsOrString content.body "file", url := content.url,
       file := content.file, thumbnailUrl := content.thumbnailUrl,
       thumbnailFile := content.thumbnailFile,
       filename := some (jsOrString content.filename
         (jsOrString content.body "file")),
       filesize := (content.infoSize).getD 0,
       mimetype := content.infoMimetype,
       inReplyTo := content.inReplyToEventId, senderId := sender,
       senderName := senderName, timestamp := ts, isOwn := isOwn }, false⟩
  else if ty = "m.room.message" ∧ content.msgtype = some "m.location" then
    ⟨{ eventId := eventId, kind := "location", geoUri := content.geoUri,
       content := jsOrString content.body "Location", senderId := sender,
       senderName := senderName, timestamp := ts, isOwn := isOwn }, false⟩
  else if ty = "m.reaction" then
    ⟨{ eventId := eventId, kind := "reaction", key := content.relKey,
       targetEventId := content.relEventId, senderId := sender,
       senderName := senderName, timestamp := ts, isOwn := isOwn }, false⟩
  else if ty.startsWith "m.call." then
    ⟨{ eventId := eventId, kind := "call", callType := some ty,
       contentObj := some content, senderId := sender,
       senderName := senderName, timestamp := ts, isOwn := isOwn }, false⟩
  else if ty = "m.room.member" then
    ⟨{ eventId := eventId, kind := "system", subtype := some "member",
       membership := content.membership, stateKey := event.stateKey,
       displayName := content.displayname, senderId := sender,
       timestamp := ts }, false⟩
  else if ty = "m.room.name" ∨ ty = "m.room.topic" ∨ ty = "m.room.avatar" then
    ⟨{ eventId := eventId, kind := "system", subtype := some ty,
       contentObj := some content, senderId := sender,
       timestamp := ts }, false⟩
  else
    ⟨{ eventId := eventId, kind := "unknown", type := ty,
       content := reprStr content, senderId := sender,
       senderName := senderName, timestamp := ts, isOwn := isOwn }, false⟩

/- ------------------------------------------------------------------
   Pagination controller (src/app.js lines 579-681)
   ------------------------------------------------------------------ -/

/-- A rendered message element in the messages container: its
data-event-id and its rendered height in pixels. The same type models a
message returned by a pagination page (via the element
createMessageElement builds for it). -/
structure RenderedMessage where
  eventId : String
  height : Int
  deriving Repr, DecidableEq

/-- The pagination state of src/app.js: the two module-global guard flags
declared at lines 579-580 (they are not indexed by room), the message
elements of the container, and the scroll offset. -/
structure PagState where
  isLoadingOlder : Bool
  canLoadMore : Bool
  dom : List RenderedMessage
  scrollTop : Int
  deriving Repr, DecidableEq

/-- messagesContainer.scrollHeight: the 1 px top sentinel plus the
rendered heights of the message elements. -/
def scrollHeight (st : PagState) : Int :=
  1 + (st.dom.map RenderedMessage.height).sum

/-- The value resolved by matrixClient.loadOlderMessages(roomId, 10):
a page of messages and the continuation flag. -/
structure PageResult where
  messages : List RenderedMessage
  canLoadMore : Bool
  deriving Repr, DecidableEq

/-- What the synchronous prefix of loadOlderMessages did: rejected by the
guard, or started, recording the pre-await scrollHeight and scrollTop. -/
inductive BeginOutcome where
  | rejected
  | started (prevScrollHeight prevScrollTop : Int)
  deriving Repr, DecidableEq

/-- Result of the synchronous prefix of loadOlderMessages: its outcome,
the state when control is yielded at the await, and whether a pagination
network request was issued. -/
structure BeginResult where
  outcome : BeginOutcome
  state : PagState
  requestIssued : Bool
  deriving Repr, DecidableEq

/-- src/app.js lines 643-652, the synchronous prefix of loadOlderMessages
up to the awaited network call: the guard
`if (isLoadingOlder || !canLoadMore) return` rejects without touching any
state and without a request; otherwise set isLoadingOlder, record the
container scrollHeight and scrollTop, and issue the request. The roomId
parameter is not consulted by the guard. -/
def loadOlderBegin (st : PagState) (roomId : String) : BeginResult :=
  let _ := roomId
  if st.isLoadingOlder || !st.canLoadMore then ⟨.rejected, st, false⟩
  else ⟨.started (scrollHeight st) st.scrollTop,
        { st with isLoadingOlder := true }, true⟩

/-- src/app.js lines 663-670: each new element is inserted right after the
top sentinel (insertBefore topSentinel.nextSibling), so the loop leaves
the batch in reverse page order, above the existing elements. -/
def insertAfterSentinel (dom newMessages : List RenderedMessage) :
    List RenderedMessage :=
  newMessages.reverse ++ dom

/-- src/app.js lines 653-680, the continuation of loadOlderMessages after
the network call resolves: store the continuation flag, drop the page
messages whose eventId is already on an element in the container, insert
the rest at the top, restore the scroll anchor by the height delta, and
clear the in-flight flag (the finally block). -/
def loadOlderComplete (st : PagState)
    (prevScrollHeight prevScrollTop : Int) (result : PageResult) : PagState :=
  let st1 := { st with canLoadMore := result.canLoadMore }
  let existingIds := st1.dom.map RenderedMessage.eventId
  let newMessages :=
    result.messages.filter (fun m => !(existingIds.contains m.eventId))
  let st2 := { st1 with dom := insertAfterSentinel st1.dom newMessages }
  { st2 with
      scrollTop := prevScrollTop + (scrollHeight st2 - prevScrollHeight),
      isLoadingOlder := false }

/-- src/app.js lines 676-680, the catch path of loadOlderMessages: the
finally block clears the in-flight flag; nothing else is touched. -/
def loadOlderError (st : PagState) : PagState :=
  { st with isLoadingOlder := false }

/-- One whole run of loadOlderMessages when no interleaving occurs: the
synchronous prefix followed, when the guard passed, by the continuation on
the supplied page. Returns the final state and whether a request was
issued. -/
def loadOlderRun (st : PagState) (roomId : String) (result : PageResult) :
    PagState × Bool :=
  match loadOlderBegin st roomId with
  | ⟨.rejected, s, _⟩ => (s, false)
  | ⟨.started ph pt, s, _⟩ => (loadOlderComplete s ph pt result, true)

/-- src/app.js lines 582-620, loadMessages (run when a conversation is
opened): clear the container, add the sentinel, append the fetched
messages, scroll to the bottom. The module-global guard flags are not
touched. -/
def loadMessages (st : PagState) (messages : List RenderedMessage) :
    PagState :=
  let st1 := { st with dom := messages }
  { st1 with scrollTop := scrollHeight st1 }

/- ------------------------------------------------------------------
   Spec predicates and theorems
   ------------------------------------------------------------------ -/

/-- All media handles of a call session are released: no call object, no
local or remote stream, not in a call. -/
def MediaReleased (s : RTCState) : Prop :=
  s.currentCall = none ∧ s.localStream = none ∧
    s.remoteStream = none ∧ s.isInCall = false

/-- C1 counterexample: with the event id registered as a pending echo, the
first matching inbound event is suppressed, but the registration is NOT
removed by that suppression, and a second inbound event with the same
eventId is suppressed again by the same registration — contradicting the
claim that the registration is removed immediately after the first
suppression. -/
theorem c1_counterexample :
    (handleRoomTimelineEvent ⟨["$e1"], [], none⟩ "m.room.message" "$e1"
      true).suppressed = true ∧
    (handleRoomTimelineEvent ⟨["$e1"], [], none⟩ "m.room.message" "$e1"
      true).state.pendingEchos = ["$e1"] ∧
    (handleRoomTimelineEvent
      (handleRoomTimelineEvent ⟨["$e1"], [], none⟩ "m.room.message" "$e1"
        true).state "m.room.message" "$e1" true).suppressed = true :=
  ⟨rfl, rfl, rfl⟩

/-- C1 (amended): an inbound timeline event whose eventId is registered as
a pending echo is suppressed from timeline insertion, but the suppression
leaves the whole state — the pending-echo set included — unchanged, so
every further inbound event with the same eventId is suppressed as long as
the registration lives; the registration is removed only by the expiry
timer (expireEcho, scheduled about 5 seconds after the send). -/
theorem c1_amended (st : EchoState) (ty eid : String) (cur : Bool)
    (hty : ty = "m.room.message" ∨ ty = "m.room.encrypted")
    (hreg : st.pendingEchos.contains eid = true) :
    (handleRoomTimelineEvent st ty eid cur).suppressed = true ∧
    (handleRoomTimelineEvent st ty eid cur).state = st ∧
    (expireEcho st eid).pendingEchos = st.pendingEchos.erase eid := by
  have hmem : eid ∈ st.pendingEchos := by simpa using hreg
  unfold handleRoomTimelineEvent expireEcho
  rcases hty with h | h <;> subst h <;> simp [hmem]

/-- C1 amended witness at a concrete registered echo. -/
theorem c1_amended_witness :
    (handleRoomTimelineEvent ⟨["$e1"], [], none⟩ "m.room.encrypted" "$e1"
      false).suppressed = true ∧
    (handleRoomTimelineEvent ⟨["$e1"], [], none⟩ "m.room.encrypted" "$e1"
      false).state = ⟨["$e1"], [], none⟩ ∧
    (expireEcho ⟨["$e1"], [], none⟩ "$e1").pendingEchos
      = (["$e1"] : List String).erase "$e1" :=
  c1_amended ⟨["$e1"], [], none⟩ "m.room.encrypted" "$e1" false
    (Or.inr rfl) rfl

/-- When every per-device acknowledgment returns, the acknowledgment loop
acknowledges exactly the reported pairs and throws nothing. -/
theorem ackDevicesLoop_all_ok (ackResult : String × String → Option String)
    (devs : List (String × String))
    (h : ∀ d, d ∈ devs → ackResult d = none) :
    ackDevicesLoop ackResult devs = (devs, none) := by
  induction devs with
  | nil => rfl
  | cons d ds ih =>
    have hd : ackResult d = none := h d (List.mem_cons_self d ds)
    have hds := ih (fun x hx => h x (List.mem_cons_of_mem d hx))
    unfold ackDevicesLoop
    rw [hd, hds]

/-- C3 counterexample: when the first awaited setDeviceKnown of the
recovery block throws, the run makes only one send attempt, acknowledges
none of the two reported devices, never sweeps the room, and propagates
the acknowledgment error — so the send does not acknowledge the reported
devices and is not retried, contradicting the claim. -/
theorem c3_counterexample :
    (sendMessage ⟨[], [], none⟩ "hi"
      (.unknownDeviceError [("@u:hs", "DEV1"), ("@u:hs", "DEV2")])
      (fun d => if d = ("@u:hs", "DEV1") then some "ack failed" else none)
      (.ok "$new")).attempts = 1 ∧
    (sendMessage ⟨[], [], none⟩ "hi"
      (.unknownDeviceError [("@u:hs", "DEV1"), ("@u:hs", "DEV2")])
      (fun d => if d = ("@u:hs", "DEV1") then some "ack failed" else none)
      (.ok "$new")).acked = [] ∧
    (sendMessage ⟨[], [], none⟩ "hi"
      (.unknownDeviceError [("@u:hs", "DEV1"), ("@u:hs", "DEV2")])
      (fun d => if d = ("@u:hs", "DEV1") then some "ack failed" else none)
      (.ok "$new")).sweptRoom = false ∧
    (sendMessage ⟨[], [], none⟩ "hi"
      (.unknownDeviceError [("@u:hs", "DEV1"), ("@u:hs", "DEV2")])
      (fun d => if d = ("@u:hs", "DEV1") then some "ack failed" else none)
      (.ok "$new")).thrown = some (.otherError "ack failed") :=
  ⟨rfl, rfl, rfl, rfl⟩

/-- C3 (amended): on an UnknownDeviceError the reported devices are
acknowledged in order; when every acknowledgment succeeds the room is
swept and the send is retried exactly once (two attempts in total), a
failing retry being propagated to the caller; when an acknowledgment
throws, the devices acknowledged are the prefix processed before the
throw, no sweep and no retry occur, and the acknowledgment failure is
propagated; in every case at most two send attempts are made. -/
theorem c3_amended (st : EchoState) (message : String)
    (devs : List (String × String))
    (ackResult : String × String → Option String) (retry : SendOutcome)
    (hmsg : ¬ jsTrim message = "")
    (hack : ∀ d, d ∈ devs → ackResult d = none) :
    (sendMessage st message (.unknownDeviceError devs) ackResult
      retry).acked = devs ∧
    (sendMessage st message (.unknownDeviceError devs) ackResult
      retry).sweptRoom = true ∧
    (sendMessage st message (.unknownDeviceError devs) ackResult
      retry).attempts = 2 ∧
    (retry.isOk = false →
      (sendMessage st message (.unknownDeviceError devs) ackResult
        retry).thrown = some retry) ∧
    (∀ a msg acked, ackDevicesLoop a devs = (acked, some msg) →
      sendMessage st message (.unknownDeviceError devs) a retry
        = ⟨st, some (.otherError msg), acked, false, 1⟩) ∧
    (∀ f a q, (sendMessage st message f a q).attempts ≤ 2) := by
  have hloop := ackDevicesLoop_all_ok ackResult devs hack
  refine ⟨?_, ?_, ?_, ?_, ?_, ?_⟩
  · cases retry <;> simp [sendMessage, hmsg, hloop]
  · cases retry <;> simp [sendMessage, hmsg, hloop]
  · cases retry <;> simp [sendMessage, hmsg, hloop]
  · intro hnotok
    cases retry with
    | ok eid => simp [SendOutcome.isOk] at hnotok
    | unknownDeviceError d => simp [sendMessage, hmsg, hloop]
    | otherError m => simp [sendMessage, hmsg, hloop]
  · intro a msg acked ha
    simp [sendMessage, hmsg, ha]
  · intro f a q
    cases f with
    | ok eid => simp [sendMessage, hmsg]
    | otherError m => simp [sendMessage, hmsg]
    | unknownDeviceError d =>
      rcases hl : ackDevicesLoop a d with ⟨acked2, thrown2⟩
      cases thrown2 <;> cases q <;> simp [sendMessage, hmsg, hl]

/-- C3 amended witness: a concrete unknown-device failure whose
acknowledgments all succeed and whose retry fails, plus the throwing-ack
branch discharged at a concrete failing acknowledgment. -/
theorem c3_amended_witness :
    (sendMessage ⟨[], [], none⟩ "hi" (.unknownDeviceError [("@u:hs", "DEV")])
      (fun _ => none) (.otherError "boom")).acked = [("@u:hs", "DEV")] ∧
    (sendMessage ⟨[], [], none⟩ "hi" (.unknownDeviceError [("@u:hs", "DEV")])
      (fun _ => none) (.otherError "boom")).sweptRoom = true ∧
    (sendMessage ⟨[], [], none⟩ "hi" (.unknownDeviceError [("@u:hs", "DEV")])
      (fun _ => none) (.otherError "boom")).attempts = 2 ∧
    (sendMessage ⟨[], [], none⟩ "hi" (.unknownDeviceError [("@u:hs", "DEV")])
      (fun _ => none) (.otherError "boom")).thrown
      = some (.otherError "boom") ∧
    sendMessage ⟨[], [], none⟩ "hi" (.unknownDeviceError [("@u:hs", "DEV")])
      (fun _ => some "ack failed") (.otherError "boom")
      = ⟨⟨[], [], none⟩, some (.otherError "ack failed"), [], false, 1⟩ ∧
    (∀ f a q, (sendMessage ⟨[], [], none⟩ "hi" f a q).attempts ≤ 2) := by
  have h := c3_amended ⟨[], [], none⟩ "hi" [("@u:hs", "DEV")]
    (fun _ => none) (.otherError "boom") (by decide) (fun d _ => rfl)
  exact ⟨h.1, h.2.1, h.2.2.1, h.2.2.2.1 rfl,
    h.2.2.2.2.1 (fun _ => some "ack failed") "ack failed" [] rfl,
    h.2.2.2.2.2⟩

/-- C6: a loadOlderMessages call issued while a prior one is still in
flight (isLoadingOlder set) is rejected by the guard at entry: it returns
immediately, issues no network request, and leaves the pagination state
exactly as it was, so the continuation of the in-flight request computes
the same result as if the second call had never happened. -/
theorem c6_single_flight (st : PagState) (roomId : String)
    (h : st.isLoadingOlder = true) :
    loadOlderBegin st roomId = ⟨.rejected, st, false⟩ ∧
    (∀ ph pt res,
      loadOlderComplete (loadOlderBegin st roomId).state ph pt res
        = loadOlderComplete st ph pt res) := by
  unfold loadOlderBegin
  simp [h]

/-- C6 witness: a concrete in-flight state. -/
theorem c6_single_flight_witness :
    loadOlderBegin ⟨true, true, [⟨"$a", 10⟩], 3⟩ "!room:hs"
      = ⟨.rejected, ⟨true, true, [⟨"$a", 10⟩], 3⟩, false⟩ ∧
    (∀ ph pt res,
      loadOlderComplete
        (loadOlderBegin ⟨true, true, [⟨"$a", 10⟩], 3⟩ "!room:hs").state
        ph pt res
        = loadOlderComplete ⟨true, true, [⟨"$a", 10⟩], 3⟩ ph pt res) :=
  c6_single_flight ⟨true, true, [⟨"$a", 10⟩], 3⟩ "!room:hs" rfl

/-- C7: loadOlderMessages filters the returned page against the eventIds
already materialized in the container before inserting, so when the
container holds no duplicate eventIds and the page itself carries pairwise
distinct eventIds (as a timeline page does), the materialized set after
completion still holds at most one message per distinct eventId. -/
theorem c7_pagination_dedup (st : PagState) (ph pt : Int)
    (res : PageResult)
    (hdom : (st.dom.map RenderedMessage.eventId).Nodup)
    (hpage : (res.messages.map RenderedMessage.eventId).Nodup) :
    ((loadOlderComplete st ph pt res).dom.map
      RenderedMessage.eventId).Nodup := by
  unfold loadOlderComplete insertAfterSentinel
  simp only [List.map_append, List.map_reverse]
  refine List.Nodup.append ?_ hdom ?_
  · exact List.nodup_reverse.mpr
      (((List.filter_sublist _).map RenderedMessage.eventId).nodup hpage)
  · intro x hx hx2
    simp only [List.mem_reverse, List.mem_map] at hx
    obtain ⟨m, hm, hmx⟩ := hx
    have hf := List.of_mem_filter hm
    simp only [Bool.not_eq_true'] at hf
    have hnm : m.eventId ∉ st.dom.map RenderedMessage.eventId := by
      simpa using hf
    exact hnm (hmx ▸ hx2)

/-- C7 witness: a page overlapping the window on one id. -/
theorem c7_pagination_dedup_witness :
    ((loadOlderComplete ⟨true, true, [⟨"$a", 10⟩], 3⟩ 11 3
        ⟨[⟨"$b", 7⟩, ⟨"$a", 5⟩], true⟩).dom.map
      RenderedMessage.eventId).Nodup :=
  c7_pagination_dedup ⟨true, true, [⟨"$a", 10⟩], 3⟩ 11 3
    ⟨[⟨"$b", 7⟩, ⟨"$a", 5⟩], true⟩ (by decide) (by decide)

/-- C8: for a loadOlderMessages run that passes the guard, the container
height grows by exactly the total rendered height of the newly inserted
(deduplicated) messages, and the scroll offset afterwards equals the
pre-insertion offset plus exactly that height delta — the anchored content
does not move. -/
theorem c8_scroll_anchor (st : PagState) (roomId : String)
    (res : PageResult) (h1 : st.isLoadingOlder = false)
    (h2 : st.canLoadMore = true) :
    scrollHeight (loadOlderRun st roomId res).1 - scrollHeight st
      = ((res.messages.filter (fun m =>
          !((st.dom.map RenderedMessage.eventId).contains m.eventId))).map
            RenderedMessage.height).sum ∧
    (loadOlderRun st roomId res).1.scrollTop
      = st.scrollTop + (scrollHeight (loadOlderRun st roomId res).1
          - scrollHeight st) := by
  have hrun : loadOlderRun st roomId res
      = (loadOlderComplete { st with isLoadingOlder := true }
          (scrollHeight st) st.scrollTop res, true) := by
    unfold loadOlderRun loadOlderBegin
    simp [h1, h2]
  rw [hrun]
  unfold loadOlderComplete insertAfterSentinel scrollHeight
  simp only [List.map_append, List.map_reverse, List.sum_append,
    List.sum_reverse]
  constructor
  · ring_nf
  · ring_nf

/-- C8 witness: inserting one genuinely new 7 px message over a 10 px
window moves the offset from 3 to 10. -/
theorem c8_scroll_anchor_witness :
    scrollHeight (loadOlderRun ⟨false, true, [⟨"$a", 10⟩], 3⟩ "!room:hs"
        ⟨[⟨"$b", 7⟩, ⟨"$a", 5⟩], true⟩).1
      - scrollHeight ⟨false, true, [⟨"$a", 10⟩], 3⟩
      = (((⟨[⟨"$b", 7⟩, ⟨"$a", 5⟩], true⟩ : PageResult).messages.filter
          (fun m => !(((⟨false, true, [⟨"$a", 10⟩], 3⟩ : PagState).dom.map
            RenderedMessage.eventId).contains m.eventId))).map
              RenderedMessage.height).sum ∧
    (loadOlderRun ⟨false, true, [⟨"$a", 10⟩], 3⟩ "!room:hs"
        ⟨[⟨"$b", 7⟩, ⟨"$a", 5⟩], true⟩).1.scrollTop
      = (⟨false, true, [⟨"$a", 10⟩], 3⟩ : PagState).scrollTop
        + (scrollHeight (loadOlderRun ⟨false, true, [⟨"$a", 10⟩], 3⟩
            "!room:hs" ⟨[⟨"$b", 7⟩, ⟨"$a", 5⟩], true⟩).1
          - scrollHeight ⟨false, true, [⟨"$a", 10⟩], 3⟩) :=
  c8_scroll_anchor ⟨false, true, [⟨"$a", 10⟩], 3⟩ "!room:hs"
    ⟨[⟨"$b", 7⟩, ⟨"$a", 5⟩], true⟩ rfl rfl

/-- C10: the pagination guard flags are one module-global pair shared by
all conversations — the guard never consults the room id, and opening a
conversation (loadMessages) leaves both flags untouched; consequently once
canLoadMore is false, every later loadOlderMessages call, for any room,
returns immediately with no network request and no state change. -/
theorem c10_global_sticky_guard (st : PagState) :
    (∀ msgs, (loadMessages st msgs).isLoadingOlder = st.isLoadingOlder ∧
      (loadMessages st msgs).canLoadMore = st.canLoadMore) ∧
    (∀ r1 r2, loadOlderBegin st r1 = loadOlderBegin st r2) ∧
    (st.canLoadMore = false → ∀ roomId res,
      loadOlderBegin st roomId = ⟨.rejected, st, false⟩ ∧
      loadOlderRun st roomId res = (st, false)) := by
  refine ⟨fun msgs => ⟨rfl, rfl⟩, fun r1 r2 => rfl, fun h roomId res => ?_⟩
  unfold loadOlderRun loadOlderBegin
  simp [h]

/-- C10 witness: a state whose canLoadMore is already false, with the
stickiness implication discharged there. -/
theorem c10_global_sticky_guard_witness :
    (∀ msgs,
      (loadMessages ⟨false, false, [], 0⟩ msgs).isLoadingOlder
        = (⟨false, false, [], 0⟩ : PagState).isLoadingOlder ∧
      (loadMessages ⟨false, false, [], 0⟩ msgs).canLoadMore
        = (⟨false, false, [], 0⟩ : PagState).canLoadMore) ∧
    (∀ r1 r2, loadOlderBegin ⟨false, false, [], 0⟩ r1
      = loadOlderBegin ⟨false, false, [], 0⟩ r2) ∧
    (∀ roomId res,
      loadOlderBegin ⟨false, false, [], 0⟩ roomId
        = ⟨.rejected, ⟨false, false, [], 0⟩, false⟩ ∧
      loadOlderRun ⟨false, false, [], 0⟩ roomId res
        = (⟨false, false, [], 0⟩, false)) :=
  ⟨(c10_global_sticky_guard ⟨false, false, [], 0⟩).1,
   (c10_global_sticky_guard ⟨false, false, [], 0⟩).2.1,
   (c10_global_sticky_guard ⟨false, false, [], 0⟩).2.2 rfl⟩

/-- C2 counterexample: for a plaintext locator whose v3 download attempt
fails with an HTTP error status, resolveMxcDownloadUrl returns no value at
all — it neither attempts the r0 variant (the only URL ever fetched is the
v3 one) nor returns a failure carrying the attempted locators; and in the
image render path, when both the v3 and the r0 attempt fail, the returned
failure value is one fixed marker that is identical for two different
locators, so it cannot carry the attempted locators for diagnostics. -/
theorem c2_counterexample :
    (resolveMxcDownloadUrl "https://hs" "mxc://server/media"
      (.httpError 404)).url = none ∧
    (resolveMxcDownloadUrl "https://hs" "mxc://server/media"
        (.httpError 404)).attempted
      = ["https://hs/_matrix/media/v3/download/server/media?allow_redirect=true"] ∧
    "https://hs/_matrix/media/r0/download/server/media" ∉
      (resolveMxcDownloadUrl "https://hs" "mxc://server/media"
        (.httpError 404)).attempted ∧
    (formatImageUnencrypted "https://hs" "mxc://serverA/mediaA" "v3url"
        .netThrow .netThrow).html
      = (formatImageUnencrypted "https://hs" "mxc://serverB/mediaB" "v3url"
        .netThrow .netThrow).html := by
  exact ⟨rfl, by decide, by decide, rfl⟩

/-- C2 (amended): plaintext resolution attempts the v3 endpoint first. In
resolveMxcDownloadUrl the r0 endpoint is never fetched: an ok v3 response
yields the v3 URL, an HTTP error response from v3 yields no value and no
fallback, and a thrown v3 fetch yields the r0 URL unverified. In the
unencrypted-image render path any v3 failure leads to exactly one r0
attempt, and when that also fails a fixed generic failure marker is
returned that does not carry the attempted locators. -/
theorem c2_amended (hs mxc : String) (parts : MxcParts)
    (hp : parseMxc mxc = some parts) :
    (resolveMxcDownloadUrl hs mxc .ok
      = ⟨some (mediaV3DownloadUrl (stripTrailingSlash hs) parts),
         [mediaV3DownloadUrl (stripTrailingSlash hs) parts]⟩) ∧
    (∀ s, resolveMxcDownloadUrl hs mxc (.httpError s)
      = ⟨none, [mediaV3DownloadUrl (stripTrailingSlash hs) parts]⟩) ∧
    (resolveMxcDownloadUrl hs mxc .netThrow
      = ⟨some (mediaR0DownloadUrl (stripTrailingSlash hs) parts),
         [mediaV3DownloadUrl (stripTrailingSlash hs) parts]⟩) ∧
    (∀ v3Url v3f, ¬ v3f = FetchOutcome.ok →
      formatImageUnencrypted hs mxc v3Url v3f .ok
        = ⟨imageHtml
            ("blob:" ++ mediaR0DownloadUrl (stripTrailingSlash hs) parts),
           [v3Url, mediaR0DownloadUrl (stripTrailingSlash hs) parts]⟩) ∧
    (∀ v3Url v3f r0f, ¬ v3f = FetchOutcome.ok → ¬ r0f = FetchOutcome.ok →
      formatImageUnencrypted hs mxc v3Url v3f r0f
        = ⟨"<span class=\"error-message\">Image unavailable</span>",
           [v3Url, mediaR0DownloadUrl (stripTrailingSlash hs) parts]⟩) := by
  unfold resolveMxcDownloadUrl formatImageUnencrypted
  rw [hp]
  refine ⟨rfl, fun s => rfl, rfl, ?_, ?_⟩
  · intro v3Url v3f hf
    cases v3f with
    | ok => exact absurd rfl hf
    | httpError s => rfl
    | netThrow => rfl
  · intro v3Url v3f r0f hf hr
    cases v3f with
    | ok => exact absurd rfl hf
    | httpError s =>
      cases r0f with
      | ok => exact absurd rfl hr
      | httpError q => rfl
      | netThrow => rfl
    | netThrow =>
      cases r0f with
      | ok => exact absurd rfl hr
      | httpError q => rfl
      | netThrow => rfl

/-- C2 amended witness at a concrete locator. -/
theorem c2_amended_witness :
    (resolveMxcDownloadUrl "https://hs" "mxc://server/media" .ok
      = ⟨some (mediaV3DownloadUrl (stripTrailingSlash "https://hs")
              ⟨"server", "media"⟩),
         [mediaV3DownloadUrl (stripTrailingSlash "https://hs")
              ⟨"server", "media"⟩]⟩) ∧
    (∀ s, resolveMxcDownloadUrl "https://hs" "mxc://server/media"
        (.httpError s)
      = ⟨none, [mediaV3DownloadUrl (stripTrailingSlash "https://hs")
              ⟨"server", "media"⟩]⟩) ∧
    (resolveMxcDownloadUrl "https://hs" "mxc://server/media" .netThrow
      = ⟨some (mediaR0DownloadUrl (stripTrailingSlash "https://hs")
              ⟨"server", "media"⟩),
         [mediaV3DownloadUrl (stripTrailingSlash "https://hs")
              ⟨"server", "media"⟩]⟩) ∧
    (∀ v3Url v3f, ¬ v3f = FetchOutcome.ok →
      formatImageUnencrypted "https://hs" "mxc://server/media" v3Url v3f .ok
        = ⟨imageHtml ("blob:" ++ mediaR0DownloadUrl
              (stripTrailingSlash "https://hs") ⟨"server", "media"⟩),
           [v3Url, mediaR0DownloadUrl (stripTrailingSlash "https://hs")
              ⟨"server", "media"⟩]⟩) ∧
    (∀ v3Url v3f r0f, ¬ v3f = FetchOutcome.ok → ¬ r0f = FetchOutcome.ok →
      formatImageUnencrypted "https://hs" "mxc://server/media" v3Url v3f r0f
        = ⟨"<span class=\"error-message\">Image unavailable</span>",
           [v3Url, mediaR0DownloadUrl (stripTrailingSlash "https://hs")
              ⟨"server", "media"⟩]⟩) :=
  c2_amended "https://hs" "mxc://server/media" ⟨"server", "media"⟩ rfl

/-- C4 counterexample: an incoming call arriving while a call is active is
rejected, but when that reject throws, the surrounding catch block runs
cleanup, which mutates the active session state (currentCall, localStream,
remoteStream, isVideo, isInCall are all reset) — contradicting the claim
that the active session state is unchanged on every such rejection. -/
theorem c4_counterexample :
    (handleIncomingCall
        ⟨some "call1", some ["track1"], some ["track2"], true, true, []⟩
        ⟨"call2", false, false⟩ .opThrow false (.gotStream []) .opOk
        .opOk).currentCall = none ∧
    (⟨some "call1", some ["track1"], some ["track2"], true, true, []⟩ :
        RTCState).currentCall = some "call1" ∧
    (handleIncomingCall
        ⟨some "call1", some ["track1"], some ["track2"], true, true, []⟩
        ⟨"call2", false, false⟩ .opThrow false (.gotStream []) .opOk
        .opOk).isInCall = false :=
  ⟨rfl, rfl, rfl⟩

/-- C4 (amended): at most one call session is active — an outgoing call
attempt while a call is active returns false with the state unchanged
whatever the collaborator outcomes, and an incoming call while a call is
active is auto-rejected; when the reject succeeds the active session state
is unchanged, and when the reject itself throws, the catch handler runs
cleanup, resetting the active session state. -/
theorem c4_amended (st : RTCState) (h : st.isInCall = true) :
    (∀ v media create place,
      makeCall st v media create place = ⟨st, false, none⟩) ∧
    (∀ call accept media ans rd,
      handleIncomingCall st call .opOk accept media ans rd = st) ∧
    (∀ call accept media ans rd,
      handleIncomingCall st call .opThrow accept media ans rd
        = cleanup st) := by
  unfold makeCall handleIncomingCall
  simp [h]

/-- C4 amended witness at a concrete active session. -/
theorem c4_amended_witness :
    (∀ v media create place,
      makeCall ⟨some "call1", some ["track1"], none, true, true, []⟩
        v media create place
        = ⟨⟨some "call1", some ["track1"], none, true, true, []⟩,
           false, none⟩) ∧
    (∀ call accept media ans rd,
      handleIncomingCall
        ⟨some "call1", some ["track1"], none, true, true, []⟩
        call .opOk accept media ans rd
        = ⟨some "call1", some ["track1"], none, true, true, []⟩) ∧
    (∀ call accept media ans rd,
      handleIncomingCall
        ⟨some "call1", some ["track1"], none, true, true, []⟩
        call .opThrow accept media ans rd
        = cleanup ⟨some "call1", some ["track1"], none, true, true, []⟩) :=
  c4_amended ⟨some "call1", some ["track1"], none, true, true, []⟩ rfl

/-- C5: every exit of a call session to the Ended state releases all media
handles: cleanup nulls currentCall, localStream and remoteStream, clears
isInCall, and stops every track of the held local stream; local hangup
(whether or not the call hangup throws), the remote hangup event, the
ended state event, every failing path of makeCall, and every failing
accept path of handleIncomingCall all end in exactly that cleanup state —
and on the paths that had acquired a fresh stream, its tracks are among
the stopped tracks. -/
theorem c5_ended_releases_media (st : RTCState) :
    (MediaReleased (cleanup st) ∧
      (cleanup st).stoppedTracks
        = st.stoppedTracks ++ st.localStream.getD []) ∧
    (∀ op, hangup st op = cleanup st) ∧
    handleCallEnded st = cleanup st ∧
    handleCallHangup st = cleanup st ∧
    handleCallStateChange st "ended" = cleanup st ∧
    (st.isInCall = false →
      (∀ v msg create place,
        MediaReleased (makeCall st v (.mediaThrow msg) create place).state ∧
        (makeCall st v (.mediaThrow msg) create place).success = false) ∧
      (∀ v tracks place,
        MediaReleased
          (makeCall st v (.gotStream tracks) .createNull place).state ∧
        (∀ t, t ∈ tracks → t ∈ (makeCall st v (.gotStream tracks)
          .createNull place).state.stoppedTracks)) ∧
      (∀ v tracks c,
        MediaReleased
          (makeCall st v (.gotStream tracks) (.created c) .opThrow).state ∧
        (∀ t, t ∈ tracks → t ∈ (makeCall st v (.gotStream tracks)
          (.created c) .opThrow).state.stoppedTracks)) ∧
      (∀ call msg ans rd,
        MediaReleased (handleIncomingCall st call .opOk true
          (.mediaThrow msg) ans rd)) ∧
      (∀ call tracks rd,
        MediaReleased (handleIncomingCall st call .opOk true
          (.gotStream tracks) .opThrow rd) ∧
        (∀ t, t ∈ tracks → t ∈ (handleIncomingCall st call .opOk true
          (.gotStream tracks) .opThrow rd).stoppedTracks))) := by
  refine ⟨⟨⟨rfl, rfl, rfl, rfl⟩, rfl⟩, ?_, rfl, rfl, rfl, ?_⟩
  · intro op
    unfold hangup
    cases h : st.currentCall <;> cases op <;> rfl
  · intro h
    unfold makeCall handleIncomingCall
    refine ⟨?_, ?_, ?_, ?_, ?_⟩
    · intro v msg create place
      simp [h, MediaReleased, cleanup]
    · intro v tracks place
      refine ⟨?_, ?_⟩
      · simp [h, MediaReleased, cleanup]
      · intro t ht
        simp [h, cleanup, ht]
    · intro v tracks c
      refine ⟨?_, ?_⟩
      · simp [h, MediaReleased, cleanup]
      · intro t ht
        simp [h, cleanup, ht]
    · intro call msg ans rd
      simp [h, MediaReleased, cleanup]
    · intro call tracks rd
      refine ⟨?_, ?_⟩
      · simp [h, MediaReleased, cleanup]
      · intro t ht
        simp [h, cleanup, ht]

/-- C5 witness at a concrete idle state. -/
theorem c5_ended_releases_media_witness :
    MediaReleased (cleanup ⟨none, none, none, false, false, []⟩) ∧
    (∀ op, hangup ⟨none, none, none, false, false, []⟩ op
      = cleanup ⟨none, none, none, false, false, []⟩) ∧
    MediaReleased (makeCall ⟨none, none, none, false, false, []⟩ true
      (.gotStream ["trackA"]) .createNull .opOk).state ∧
    ("trackA" ∈ (makeCall ⟨none, none, none, false, false, []⟩ true
      (.gotStream ["trackA"]) .createNull .opOk).state.stoppedTracks) := by
  have h := c5_ended_releases_media ⟨none, none, none, false, false, []⟩
  have h6 := h.2.2.2.2.2 rfl
  exact ⟨h.1.1, h.2.1, (h6.2.1 true ["trackA"] .opOk).1,
    (h6.2.1 true ["trackA"] .opOk).2 "trackA" (by simp)⟩

/-- C9: classifying an encrypted event whose decryption failed issues a
key request through whichever key-request primitive the crypto
collaborator exposes (best-effort: the classification result is identical
whether or not that request throws), and yields an error-kind Message with
isDecryptionFailure set and a nonempty human-readable reason text built
from the decryption error of the event, defaulting to a fixed notice; the
classifier is a total function, so it never raises. -/
theorem c9_decryption_failure_classify (uid : String) (e : MxEvent)
    (nm : Option String) (api : KeyRequestApi) (kr : KeyRequestOutcome)
    (henc : e.encrypted = true) (hfail : e.decryptionFailure = true) :
    (formatEventToMessage uid e nm api kr).message.kind = "error" ∧
    (formatEventToMessage uid e nm api kr).message.isDecryptionFailure
      = true ∧
    (formatEventToMessage uid e nm api kr).message.content
      = "🔒 " ++ jsOrString e.unsignedDecryptionError
          (jsOrString e.decryptionFailureReason
            "Unable to decrypt: keys not available.") ∧
    ¬ (formatEventToMessage uid e nm api kr).message.content = "" ∧
    (¬ api = KeyRequestApi.neitherApi →
      (formatEventToMessage uid e nm api kr).keyRequested = true) ∧
    formatEventToMessage uid e nm api .krThrow
      = formatEventToMessage uid e nm api .krOk := by
  have hcontent : ∀ s : String, ¬ ("🔒 " ++ s) = "" := by
    intro s hempty
    have hlen : ("🔒 " ++ s).length = (0 : Nat) := by rw [hempty]; rfl
    rw [String.length_append] at hlen
    have h2 : ("🔒 " : String).length = 2 := rfl
    omega
  refine ⟨?_, ?_, ?_, ?_, ?_, rfl⟩
  · unfold formatEventToMessage
    simp [henc, hfail]
  · unfold formatEventToMessage
    simp [henc, hfail]
  · unfold formatEventToMessage
    simp [henc, hfail]
  · unfold formatEventToMessage
    simp only [henc, hfail, and_self, if_true, ite_true]
    exact hcontent _
  · intro hapi
    cases api with
    | cryptoApi =>
      unfold formatEventToMessage
      simp [henc, hfail]
    | clientApi =>
      unfold formatEventToMessage
      simp [henc, hfail]
    | neitherApi => exact absurd rfl hapi

/-- C9 witness at a concrete undecryptable event. -/
theorem c9_decryption_failure_classify_witness :
    (formatEventToMessage "@me:hs"
        ⟨"$evt", "@peer:hs", "m.room.encrypted", 5, none, true, true,
          none, none, {}⟩ none .cryptoApi .krThrow).message.kind
      = "error" ∧
    (formatEventToMessage "@me:hs"
        ⟨"$evt", "@peer:hs", "m.room.encrypted", 5, none, true, true,
          none, none, {}⟩ none .cryptoApi
        .krThrow).message.isDecryptionFailure = true ∧
    (formatEventToMessage "@me:hs"
        ⟨"$evt", "@peer:hs", "m.room.encrypted", 5, none, true, true,
          none, none, {}⟩ none .cryptoApi .krThrow).message.content
      = "🔒 " ++ jsOrString none
          (jsOrString none "Unable to decrypt: keys not available.") ∧
    ¬ (formatEventToMessage "@me:hs"
        ⟨"$evt", "@peer:hs", "m.room.encrypted", 5, none, true, true,
          none, none, {}⟩ none .cryptoApi .krThrow).message.content = "" ∧
    (¬ KeyRequestApi.cryptoApi = KeyRequestApi.neitherApi →
      (formatEventToMessage "@me:hs"
        ⟨"$evt", "@peer:hs", "m.room.encrypted", 5, none, true, true,
          none, none, {}⟩ none .cryptoApi .krThrow).keyRequested = true) ∧
    formatEventToMessage "@me:hs"
        ⟨"$evt", "@peer:hs", "m.room.encrypted", 5, none, true, true,
          none, none, {}⟩ none .cryptoApi .krThrow
      = formatEventToMessage "@me:hs"
        ⟨"$evt", "@peer:hs", "m.room.encrypted", 5, none, true, true,
          none, none, {}⟩ none .cryptoApi .krOk :=
  c9_decryption_failure_classify "@me:hs"
    ⟨"$evt", "@peer:hs", "m.room.encrypted", 5, none, true, true,
      none, none, {}⟩ none .cryptoApi .krThrow rfl rfl
